import Mathlib

/-!
Shallow embedding of the state-management core of `discord_bot.py`
(PandaBot): mood registry, conversation ledger, story ledger, prompt
assembly and the mood expiry sweeper, together with theorems checking
the natural-language specification against this embedding.

Modelling conventions:
* Maps backed by Python `defaultdict`s become functions out of `Nat`
  (user/channel ids); a missing key is `none` (for `user_moods` /
  `mood_timers`) or the default-factory value (`[]` for the ledgers).
* Wall-clock time is a `Nat` counted in minutes (`datetime.now()` is the
  `now` argument threaded through the operations that read the clock).
* The opaque LLM invocation is a parameter `llm : String → Option String`
  from the assembled prompt to either a (stripped) response or a failure
  (`none`, standing for any raised exception).
-/

/-- Word counter for `count_tokens`: models Python `len(text.split())`.
`inWord` records whether the previous character was part of a word. -/
def countWordsAux : List Char → Bool → Nat
  | [], _ => 0
  | c :: cs, inWord =>
    if c.isWhitespace then countWordsAux cs false
    else (if inWord then 0 else 1) + countWordsAux cs true

/-- `count_tokens(text)`: estimate token count based on word count
(`len(text.split())`, line 70-72 of the source). -/
def count_tokens (text : String) : Nat :=
  countWordsAux text.data false

/-- `TOKEN_LIMIT = 4000` (line 54). -/
def TOKEN_LIMIT : Nat := 4000

/-- The fixed fallback returned by `ask_llm` when the model call raises
(line 96). -/
def FALLBACK_TEXT : String := "Oops, I had trouble thinking. Try asking me again!"

/-- `sum(count_tokens(msg) for msg in conversation)` (line 180). -/
def totalTokens (conversation : List String) : Nat :=
  (conversation.map count_tokens).sum

/-- The trimming loop of `ask_with_mood` (lines 180-184):
`while total_tokens > TOKEN_LIMIT and conversation: conversation.pop(0)`.
Note the guard is only non-emptiness, not `len > 1`: the loop may pop
every message, including a single oversized one. -/
def trimConversation : List String → List String
  | [] => []
  | msg :: rest =>
    if totalTokens (msg :: rest) > TOKEN_LIMIT then trimConversation rest
    else msg :: rest

/-- The whole process-wide mutable state (lines 50-53): `user_moods`,
`mood_timers`, `conversation_state`, `story_state`. -/
structure BotState where
  user_moods : Nat → Option String
  mood_timers : Nat → Option Nat
  conversation_state : Nat → List String
  story_state : Nat → List String

/-- The state at process start: every map empty. -/
def initState : BotState :=
  { user_moods := fun _ => none
    mood_timers := fun _ => none
    conversation_state := fun _ => []
    story_state := fun _ => [] }

/-- The mood lookup `user_moods.get(user_id, "friendly")` shared by
`ask_with_mood` (line 171), `trivia` (line 223) and `summarize` (line 234).
It consults only the stored label: no expiry check happens on read. -/
def getMoodFor (st : BotState) (user_id : Nat) : String :=
  (st.user_moods user_id).getD "friendly"

/-- The prompt assembled inside `ask_llm` (lines 80-81):
`conversation_text = "\n".join(conversation) + f"\nUser: {question}"`;
`prompt = f"Respond in a {mood} tone.\n{conversation_text}"`. -/
def ask_prompt (question mood : String) (conversation : List String) : String :=
  "Respond in a " ++ mood ++ " tone.\n" ++
    (String.intercalate "\n" conversation ++ "\nUser: " ++ question)

/-- `ask_llm` (lines 74-96): builds the prompt, hands it to the opaque
model invocation, and on any exception returns the fixed fallback text. -/
def ask_llm (question mood : String) (conversation : List String)
    (llm : String → Option String) : String :=
  match llm (ask_prompt question mood conversation) with
  | some response => response
  | none => FALLBACK_TEXT

/-- `set_mood` (lines 157-164): overwrite the mood and arm the 60-minute
timer (`mood_timers[user_id] = datetime.now() + timedelta(minutes=60)`). -/
def set_mood (st : BotState) (user_id : Nat) (mood : String) (now : Nat) : BotState :=
  { st with
    user_moods := fun u => if u = user_id then some mood else st.user_moods u
    mood_timers := fun u => if u = user_id then some (now + 60) else st.mood_timers u }

/-- One tick of `reset_mood_task` (lines 142-148): for every key of
`mood_timers`, if `now > timer` pop both the mood and the timer. -/
def reset_mood_task (st : BotState) (now : Nat) : BotState :=
  { st with
    user_moods := fun u =>
      match st.mood_timers u with
      | some t => if now > t then none else st.user_moods u
      | none => st.user_moods u
    mood_timers := fun u =>
      match st.mood_timers u with
      | some t => if now > t then none else some t
      | none => none }

/-- `ask_with_mood` (lines 167-197): look up the mood, append the user
turn to the per-user conversation, run the trimming loop, query the LLM
with the trimmed conversation, append the bot turn (with no further
trim), store the conversation back and return the response. -/
def ask_with_mood (st : BotState) (user_id : Nat) (question : String)
    (llm : String → Option String) : String × BotState :=
  let mood := getMoodFor st user_id
  let conversation := trimConversation (st.conversation_state user_id ++ ["User: " ++ question])
  let response := ask_llm question mood conversation llm
  let conversation2 := conversation ++ ["Bot: " ++ response]
  (response,
   { st with conversation_state := fun u =>
      if u = user_id then conversation2 else st.conversation_state u })

/-- `story` (lines 200-215): with a truthy `addition`, append
`f"{ctx.author.name}: {addition}"` to the channel story and echo the
story so far; otherwise return the joined story, or the sentinel
`"No story started yet!"` when the channel story is empty. -/
def story (st : BotState) (channel_id : Nat) (author : String)
    (addition : Option String) : String × BotState :=
  let s := st.story_state channel_id
  match addition with
  | some a =>
    if a = "" then
      (if s = [] then "No story started yet!"
       else "Here’s the story so far:\n" ++ String.intercalate "\n" s, st)
    else
      let s2 := s ++ [author ++ ": " ++ a]
      ("Story so far:\n" ++ String.intercalate "\n" s2,
       { st with story_state := fun ch =>
          if ch = channel_id then s2 else st.story_state ch })
  | none =>
    (if s = [] then "No story started yet!"
     else "Here’s the story so far:\n" ++ String.intercalate "\n" s, st)

/-- `trivia` (lines 218-226): one-shot `ask_llm` with a fixed prompt and
the empty default conversation; no state is written. -/
def trivia (st : BotState) (user_id : Nat)
    (llm : String → Option String) : String × BotState :=
  let prompt := "Ask me a fun trivia question."
  let mood := getMoodFor st user_id
  let response := ask_llm prompt mood [] llm
  ("Trivia Time: " ++ response, st)

/-- `summarize` (lines 229-237): one-shot `ask_llm` with a wrapped prompt
and the empty default conversation; no state is written. -/
def summarize (st : BotState) (user_id : Nat) (text : String)
    (llm : String → Option String) : String × BotState :=
  let prompt := "Summarize this text in a concise manner: " ++ text
  let mood := getMoodFor st user_id
  let response := ask_llm prompt mood [] llm
  ("Summary: " ++ response, st)

/-- Repeated `story` contributions to one channel (author, text pairs). -/
def applyContribs (st : BotState) (channel_id : Nat) : List (String × String) → BotState
  | [] => st
  | (a, t) :: rest => applyContribs (story st channel_id a (some t)).2 channel_id rest

/-- A string of `n` words: `"w w … w "` as a character list. -/
def wordsChars : Nat → List Char
  | 0 => []
  | n + 1 => 'w' :: ' ' :: wordsChars n

/-- Counts occurrences of `pat` at any position of `s` (character lists). -/
def countSubstrChars (pat : List Char) : List Char → Nat
  | [] => 0
  | c :: cs =>
    (if List.isPrefixOf pat (c :: cs) then 1 else 0) + countSubstrChars pat cs

/-- Occurrence count of a pattern string inside a string. -/
def countSubstr (pat s : String) : Nat :=
  countSubstrChars pat.data s.data

/-! ## Helper lemmas -/

theorem countWordsAux_wordsChars (n : Nat) : countWordsAux (wordsChars n) false = n := by
  induction n with
  | zero => rfl
  | succ k ih => simp [wordsChars, countWordsAux, ih]; omega

theorem count_tokens_userWords (n : Nat) :
    count_tokens ("User: " ++ String.mk (wordsChars n)) = 1 + n := by
  show countWordsAux ('U' :: 's' :: 'e' :: 'r' :: ':' :: ' ' :: wordsChars n) false = 1 + n
  simp [countWordsAux, countWordsAux_wordsChars]

theorem count_tokens_botWords (n : Nat) :
    count_tokens ("Bot: " ++ String.mk (wordsChars n)) = 1 + n := by
  show countWordsAux ('B' :: 'o' :: 't' :: ':' :: ' ' :: wordsChars n) false = 1 + n
  simp [countWordsAux, countWordsAux_wordsChars]

theorem totalTokens_trim_le (l : List String) :
    totalTokens (trimConversation l) ≤ TOKEN_LIMIT := by
  induction l with
  | nil => simp [trimConversation, totalTokens, TOKEN_LIMIT]
  | cons m rest ih =>
    rw [trimConversation]
    split
    · exact ih
    · omega

theorem trim_concat_getLast (l : List String) (a : String)
    (h : count_tokens a ≤ TOKEN_LIMIT) :
    trimConversation (l ++ [a]) ≠ [] ∧
      (trimConversation (l ++ [a])).getLast? = some a := by
  induction l with
  | nil =>
    rw [List.nil_append, trimConversation]
    have hn : ¬ totalTokens [a] > TOKEN_LIMIT := by
      simp [totalTokens]; omega
    rw [if_neg hn]
    exact ⟨by simp, rfl⟩
  | cons m rest ih =>
    rw [List.cons_append, trimConversation]
    split
    · exact ih
    · constructor
      · simp
      · rw [← List.cons_append, List.getLast?_concat]

/-- A question of 4001 words, used to exercise the token ceiling. -/
theorem trim_bigText : trimConversation ["User: " ++ String.mk (wordsChars 4001)] = [] := by
  rw [trimConversation]
  have h : totalTokens ["User: " ++ String.mk (wordsChars 4001)] = 4002 := by
    simp [totalTokens, count_tokens_userWords]
  rw [if_pos (by rw [h]; decide)]
  rfl

theorem count_tokens_bigText :
    count_tokens ("User: " ++ String.mk (wordsChars 4001)) > TOKEN_LIMIT := by
  rw [count_tokens_userWords]; decide

/-! ## Claim theorems -/

/-- C1 (counterexample): the trimming loop of `ask_with_mood` guards only
on non-emptiness, so a single turn that alone exceeds the 4000-token
ceiling IS removed, leaving the ledger empty; and the bot-turn append is
not followed by any trim, so after it the ledger can hold two turns whose
cumulative estimated size exceeds the ceiling. Both parts contradict the
claimed invariant at the concrete inputs below: a 4001-word question, and
the question "hi" answered by a 4001-word model response. -/
theorem conversation_invariant_counterexample :
    (trimConversation ["User: " ++ String.mk (wordsChars 4001)] = [] ∧
     count_tokens ("User: " ++ String.mk (wordsChars 4001)) > TOKEN_LIMIT) ∧
    ((ask_with_mood initState 1 "hi"
        (fun _ => some (String.mk (wordsChars 4001)))).2.conversation_state 1 =
       ["User: hi", "Bot: " ++ String.mk (wordsChars 4001)] ∧
     totalTokens ["User: hi", "Bot: " ++ String.mk (wordsChars 4001)] > TOKEN_LIMIT ∧
     (["User: hi", "Bot: " ++ String.mk (wordsChars 4001)] : List String).length ≠ 1) := by
  refine ⟨⟨trim_bigText, count_tokens_bigText⟩, ?_, ?_, by decide⟩
  · have htrim : trimConversation ["User: hi"] = ["User: hi"] := by
      rw [trimConversation, if_neg (by decide)]
    simp [ask_with_mood, initState, getMoodFor, ask_llm, htrim]
  · have h2 : count_tokens "User: hi" = 2 := by decide
    simp [totalTokens, h2, count_tokens_botWords, TOKEN_LIMIT]

/-- C1 (amended): after `ask_with_mood`, the stored ledger is the trimmed
user-append followed by the untrimmed bot turn, and the trim invoked by
the user-turn append always leaves the cumulative estimated size at or
below `TOKEN_LIMIT` — possibly by removing every turn.  Bot-turn appends
invoke no trim, so no bound holds after them until the next question. -/
theorem conversation_trim_bound (st : BotState) (user_id : Nat) (question : String)
    (llm : String → Option String) :
    (ask_with_mood st user_id question llm).2.conversation_state user_id =
      trimConversation (st.conversation_state user_id ++ ["User: " ++ question]) ++
        ["Bot: " ++ (ask_with_mood st user_id question llm).1] ∧
    totalTokens (trimConversation (st.conversation_state user_id ++ ["User: " ++ question]))
      ≤ TOKEN_LIMIT := by
  constructor
  · simp [ask_with_mood]
  · exact totalTokens_trim_le _

/-- C2 (counterexample): `ask_with_mood` reads the mood via
`user_moods.get(user_id, "friendly")` with no expiry check, so a mood set
at minute 0 (timer armed to 60) is still returned at minute 61 if the
sweeper has not run: the read yields "sarcastic", not the default. -/
theorem mood_expiry_counterexample :
    (set_mood initState 1 "sarcastic" 0).mood_timers 1 = some 60 ∧
    60 < 61 ∧
    getMoodFor (set_mood initState 1 "sarcastic" 0) 1 = "sarcastic" ∧
    getMoodFor (set_mood initState 1 "sarcastic" 0) 1 ≠ "friendly" := by
  refine ⟨by simp [set_mood, initState], by decide, ?_, ?_⟩
  · simp [getMoodFor, set_mood]
  · simp [getMoodFor, set_mood]

/-- C2 (amended): the mood read returns the default label when no mood is
stored and immediately after a sweep deletes an expired entry; otherwise
it returns the stored label unchanged — expiry is enforced solely by the
sweeper (`reset_mood_task`), never lazily on read. -/
theorem getMood_default_rules (st : BotState) (user_id now : Nat) :
    (st.user_moods user_id = none → getMoodFor st user_id = "friendly") ∧
    (∀ m, st.user_moods user_id = some m → getMoodFor st user_id = m) ∧
    (∀ t, st.mood_timers user_id = some t → now > t →
      getMoodFor (reset_mood_task st now) user_id = "friendly") := by
  refine ⟨fun h => by simp [getMoodFor, h], fun m h => by simp [getMoodFor, h], ?_⟩
  intro t ht hnow
  simp [getMoodFor, reset_mood_task, ht, hnow]

/-- Witness for C2's amended theorem at concrete inputs: a fresh identity
reads "friendly"; a just-set mood reads back; after the sweep at minute 61
the mood set at minute 0 reads "friendly" again. -/
theorem getMood_default_rules_witness :
    getMoodFor initState 2 = "friendly" ∧
    getMoodFor (set_mood initState 1 "sarcastic" 0) 1 = "sarcastic" ∧
    getMoodFor (reset_mood_task (set_mood initState 1 "sarcastic" 0) 61) 1 = "friendly" := by
  refine ⟨(getMood_default_rules initState 2 0).1 rfl,
          (getMood_default_rules (set_mood initState 1 "sarcastic" 0) 1 0).2.1
            "sarcastic" (by simp [set_mood]),
          (getMood_default_rules (set_mood initState 1 "sarcastic" 0) 1 61).2.2
            60 (by simp [set_mood, initState]) (by decide)⟩

/-- C3 (confirmed): when the model invocation for the built prompt fails,
`ask_with_mood` returns the fixed fallback text and the stored ledger ends
with the bot-turn rendering of that same fallback text (turns are stored
as `"Bot: <text>"` strings). -/
theorem ask_fallback_on_failure (st : BotState) (user_id : Nat) (question : String)
    (llm : String → Option String)
    (h : llm (ask_prompt question (getMoodFor st user_id)
          (trimConversation (st.conversation_state user_id ++ ["User: " ++ question]))) = none) :
    (ask_with_mood st user_id question llm).1 = FALLBACK_TEXT ∧
    ((ask_with_mood st user_id question llm).2.conversation_state user_id).getLast? =
      some ("Bot: " ++ FALLBACK_TEXT) := by
  constructor
  · simp [ask_with_mood, ask_llm, h]
  · simp [ask_with_mood, ask_llm, h, List.getLast?_concat]

/-- Witness for C3 at the concrete input "hello" with an always-failing
model invocation. -/
theorem ask_fallback_on_failure_witness :
    (ask_with_mood initState 1 "hello" (fun _ => none)).1 = FALLBACK_TEXT ∧
    ((ask_with_mood initState 1 "hello" (fun _ => none)).2.conversation_state 1).getLast? =
      some ("Bot: " ++ FALLBACK_TEXT) :=
  ask_fallback_on_failure initState 1 "hello" (fun _ => none) rfl

/-- C4 (counterexample): the user's question is appended to the ledger
BEFORE the prompt is built, and `ask_llm` appends `"\nUser: <question>"`
again, so the rendered new question appears twice in the prompt, not once.
At the concrete input (fresh identity, question "hi") the prompt handed to
the model is "Respond in a friendly tone.\nUser: hi\nUser: hi", in which
the rendered user turn "User: hi" occurs exactly twice. -/
theorem ask_prompt_counterexample :
    ask_prompt "hi" (getMoodFor initState 1)
        (trimConversation (initState.conversation_state 1 ++ ["User: " ++ "hi"])) =
      "Respond in a friendly tone.\nUser: hi\nUser: hi" ∧
    countSubstr "User: hi" "Respond in a friendly tone.\nUser: hi\nUser: hi" = 2 := by
  constructor
  · have htrim : trimConversation ["User: hi"] = ["User: hi"] := by
      rw [trimConversation, if_neg (by decide)]
    simp only [initState, List.nil_append]
    show ask_prompt "hi" "friendly" (trimConversation ["User: " ++ "hi"]) = _
    rw [show ("User: " ++ "hi" : String) = "User: hi" from rfl, htrim]
    rfl
  · decide

/-- C4 (amended): the prompt handed to the model is the mood instruction,
then the POST-append ledger (which, whenever the new question survives
trimming, already ends with the rendered new question), then the new
input rendered as a user turn once more — so the new question appears
twice in the prompt, not once. -/
theorem ask_prompt_shape (st : BotState) (user_id : Nat) (question : String)
    (llm : String → Option String)
    (h : count_tokens ("User: " ++ question) ≤ TOKEN_LIMIT) :
    ask_prompt question (getMoodFor st user_id)
        (trimConversation (st.conversation_state user_id ++ ["User: " ++ question])) =
      "Respond in a " ++ getMoodFor st user_id ++ " tone.\n" ++
        (String.intercalate "\n"
          (trimConversation (st.conversation_state user_id ++ ["User: " ++ question])) ++
         "\nUser: " ++ question) ∧
    (trimConversation (st.conversation_state user_id ++ ["User: " ++ question])).getLast? =
      some ("User: " ++ question) ∧
    (ask_with_mood st user_id question llm).1 =
      ask_llm question (getMoodFor st user_id)
        (trimConversation (st.conversation_state user_id ++ ["User: " ++ question])) llm :=
  ⟨rfl, (trim_concat_getLast _ _ h).2, rfl⟩

/-- Witness for C4's amended theorem at the concrete input "hi" on a
fresh identity: the trimmed post-append ledger ends with "User: hi". -/
theorem ask_prompt_shape_witness :
    (trimConversation (initState.conversation_state 1 ++ ["User: " ++ "hi"])).getLast? =
      some ("User: " ++ "hi") :=
  (ask_prompt_shape initState 1 "hi" (fun _ => none) (by decide)).2.1

/-- C5 (confirmed): the trimming loop only pops from the front, so its
result is always a contiguous suffix of the input ledger; in particular
the relative order of every surviving turn is preserved. -/
theorem trim_is_suffix (l : List String) : trimConversation l <:+ l := by
  induction l with
  | nil => exact List.suffix_refl _
  | cons m rest ih =>
    rw [trimConversation]
    split
    · exact ih.trans (List.suffix_cons m rest)
    · exact List.suffix_refl _

/-- Helper for C7: folding contributions appends their renderings in
order to whatever the channel already holds. -/
theorem applyContribs_story_state (channel_id : Nat)
    (l : List (String × String)) :
    ∀ st : BotState, (∀ p ∈ l, p.2 ≠ "") →
      (applyContribs st channel_id l).story_state channel_id =
        st.story_state channel_id ++ l.map (fun p => p.1 ++ ": " ++ p.2) := by
  induction l with
  | nil => intro st _; simp [applyContribs]
  | cons p rest ih =>
    intro st h
    obtain ⟨a, t⟩ := p
    have ht : t ≠ "" := h _ (List.mem_cons_self _ _)
    rw [applyContribs]
    rw [ih _ (fun q hq => h q (List.mem_cons_of_mem _ hq))]
    simp [story, ht]

/-- C7 (confirmed): the story ledger only grows — starting from an empty
channel, N contributions leave exactly their N renderings in insertion
order; and none of the other operations (ask, set-mood, sweeper tick,
trivia, summarize) ever touches any channel's story state. -/
theorem story_ledger_monotone (st : BotState) (channel_id : Nat)
    (contribs : List (String × String)) (user_id now : Nat)
    (question mood : String) (llm : String → Option String)
    (hempty : st.story_state channel_id = [])
    (hne : ∀ p ∈ contribs, p.2 ≠ "") :
    (applyContribs st channel_id contribs).story_state channel_id =
      contribs.map (fun p => p.1 ++ ": " ++ p.2) ∧
    ((applyContribs st channel_id contribs).story_state channel_id).length =
      contribs.length ∧
    (ask_with_mood st user_id question llm).2.story_state = st.story_state ∧
    (set_mood st user_id mood now).story_state = st.story_state ∧
    (reset_mood_task st now).story_state = st.story_state ∧
    (trivia st user_id llm).2.story_state = st.story_state ∧
    (summarize st user_id question llm).2.story_state = st.story_state := by
  have hmain := applyContribs_story_state channel_id contribs st hne
  rw [hempty, List.nil_append] at hmain
  exact ⟨hmain, by rw [hmain]; simp, rfl, rfl, rfl, rfl, rfl⟩

/-- Witness for C7 at a concrete input: two contributions on a fresh
channel leave exactly their two renderings, in order. -/
theorem story_ledger_monotone_witness :
    (applyContribs initState 5 [("Alice", "once"), ("Bob", "upon")]).story_state 5 =
      ["Alice: once", "Bob: upon"] := by
  have h := (story_ledger_monotone initState 5 [("Alice", "once"), ("Bob", "upon")]
    1 0 "q" "m" (fun _ => none) rfl (by decide)).1
  exact h.trans (by decide)

/-- C8 (confirmed): a story read (no addition) on a channel whose story
is empty returns the "no story started" sentinel and leaves the state
untouched; the state is otherwise arbitrary, so the result is independent
of every other channel's story. -/
theorem story_read_empty_sentinel (st : BotState) (channel_id : Nat) (author : String)
    (h : st.story_state channel_id = []) :
    (story st channel_id author none).1 = "No story started yet!" ∧
    (story st channel_id author none).2 = st := by
  simp [story, h]

/-- Witness for C8: channel 5 is empty while channel 7 already holds a
contribution, and the read on channel 5 still returns the sentinel. -/
theorem story_read_empty_sentinel_witness :
    (story (story initState 7 "Bob" (some "tale")).2 5 "Alice" none).1 =
      "No story started yet!" :=
  (story_read_empty_sentinel (story initState 7 "Bob" (some "tale")).2 5 "Alice"
    (by decide)).1

/-- C9 (confirmed): `trivia` and `summarize` return the entire state
unchanged — in particular the conversation ledger — and hand `ask_llm`
the mood obtained by `getMoodFor`, the same lookup `ask_with_mood` uses,
with an empty conversation (one-shot calls). -/
theorem trivia_summarize_frame (st : BotState) (user_id : Nat) (text : String)
    (llm : String → Option String) :
    (trivia st user_id llm).2 = st ∧
    (summarize st user_id text llm).2 = st ∧
    (trivia st user_id llm).2.conversation_state user_id = st.conversation_state user_id ∧
    (summarize st user_id text llm).2.conversation_state user_id =
      st.conversation_state user_id ∧
    (trivia st user_id llm).1 =
      "Trivia Time: " ++
        ask_llm "Ask me a fun trivia question." (getMoodFor st user_id) [] llm ∧
    (summarize st user_id text llm).1 =
      "Summary: " ++
        ask_llm ("Summarize this text in a concise manner: " ++ text)
          (getMoodFor st user_id) [] llm :=
  ⟨rfl, rfl, rfl, rfl, rfl, rfl⟩

/-- C10 (confirmed): each boundary operation only writes the map entry of
the identity (or channel) it is invoked for — every other identity's
mood, timer, conversation and every other channel's story read back
unchanged. (The Python `defaultdict(list)` allocates a fresh list per
key, so no two identities share a backing ledger; in this functional
embedding that is exactly the per-key frame property proved here.) -/
theorem per_key_frame (st : BotState) (user_id other_user channel other_channel now : Nat)
    (question mood author : String) (addition : Option String)
    (llm : String → Option String)
    (hu : other_user ≠ user_id) (hc : other_channel ≠ channel) :
    ((ask_with_mood st user_id question llm).2.user_moods = st.user_moods ∧
     (ask_with_mood st user_id question llm).2.mood_timers = st.mood_timers ∧
     (ask_with_mood st user_id question llm).2.story_state = st.story_state ∧
     (ask_with_mood st user_id question llm).2.conversation_state other_user =
       st.conversation_state other_user) ∧
    ((set_mood st user_id mood now).conversation_state = st.conversation_state ∧
     (set_mood st user_id mood now).story_state = st.story_state ∧
     (set_mood st user_id mood now).user_moods other_user = st.user_moods other_user ∧
     (set_mood st user_id mood now).mood_timers other_user = st.mood_timers other_user) ∧
    ((story st channel author addition).2.user_moods = st.user_moods ∧
     (story st channel author addition).2.mood_timers = st.mood_timers ∧
     (story st channel author addition).2.conversation_state = st.conversation_state ∧
     (story st channel author addition).2.story_state other_channel =
       st.story_state other_channel) := by
  refine ⟨⟨rfl, rfl, rfl, ?_⟩, ⟨rfl, rfl, ?_, ?_⟩, ?_⟩
  · simp [ask_with_mood, hu]
  · simp [set_mood, hu]
  · simp [set_mood, hu]
  · cases addition with
    | none => exact ⟨rfl, rfl, rfl, rfl⟩
    | some a =>
      by_cases ha : a = ""
      · simp [story, ha]
      · simp [story, ha, hc]

/-- Witness for C10 at concrete keys: user 1 asks and channel 5 gets a
contribution, while user 2's conversation and channel 6's story are
unchanged. -/
theorem per_key_frame_witness :
    (ask_with_mood initState 1 "hi" (fun _ => none)).2.conversation_state 2 =
      initState.conversation_state 2 ∧
    (story initState 5 "Alice" (some "tale")).2.story_state 6 =
      initState.story_state 6 :=
  ⟨(per_key_frame initState 1 2 5 6 0 "hi" "sassy" "Alice" (some "tale") (fun _ => none)
      (by decide) (by decide)).1.2.2.2,
   (per_key_frame initState 1 2 5 6 0 "hi" "sassy" "Alice" (some "tale") (fun _ => none)
      (by decide) (by decide)).2.2.2.2.2⟩
